import Mathlib

/-!
Verification of the DataQualityLibrary pandas checks and the Postgres
context-manager connector of the dqe-automation repository.

The tabular data model is a shallow embedding of a pandas DataFrame:
a list of column names and a list of rows, each row a list of scalar
cells (integer, string, or null).  Floating-point cells are outside the
embedding, so the tolerant comparison of assert_frame_equal
(check_dtype=False, check_exact=False, rtol=1e-5) degenerates to exact
cell equality here.  Python exceptions are modelled by an explicit
result type distinguishing AssertionError (with a structured payload
mirroring the fields interpolated into the source message) from
ValueError.
-/

/-- Scalar cell of a DataFrame: integer, string, or null (NaN/None). -/
inductive Value where
  | vInt (n : Int)
  | vStr (s : String)
  | vNull
deriving DecidableEq, Repr

/-- Row of a DataFrame: the cells in column order. -/
abbrev Row := List Value

/-- Shallow embedding of a pandas DataFrame: named columns plus rows.
The integer index is not modelled; reset_index(drop=True) is the
identity here. -/
structure Frame where
  cols : List String
  rows : List Row
deriving DecidableEq, Repr

instance : Inhabited Frame := ⟨⟨[], []⟩⟩

/-- Three-way comparison from a linear order, used for cell ordering. -/
def cmpL {α : Type} [LinearOrder α] (a b : α) : Ordering :=
  if a < b then .lt else if b < a then .gt else .eq

/-- Cell ordering used by the model of sort_values: integers, then
strings, then nulls last (pandas default na_position is last). -/
def Value.cmp : Value → Value → Ordering
  | .vInt m, .vInt n => cmpL m n
  | .vInt _, .vStr _ => .lt
  | .vInt _, .vNull => .lt
  | .vStr _, .vInt _ => .gt
  | .vStr a, .vStr b => cmpL a b
  | .vStr _, .vNull => .lt
  | .vNull, .vInt _ => .gt
  | .vNull, .vStr _ => .gt
  | .vNull, .vNull => .eq

/-- Lexicographic comparison of rows, the key order of sort_values when
sorting by the full column list. -/
def rowCmp : Row → Row → Ordering
  | [], [] => .eq
  | [], _ :: _ => .lt
  | _ :: _, [] => .gt
  | a :: as, b :: bs =>
    match Value.cmp a b with
    | .eq => rowCmp as bs
    | o => o

/-- Boolean order on rows used as the comparator of the model sort. -/
def rowLE (a b : Row) : Bool := rowCmp a b != Ordering.gt

/-- Propositional form of the row order, the sorting relation. -/
def rowLEP (a b : Row) : Prop := rowLE a b = true

instance : DecidableRel rowLEP := fun a b => instDecidableEqBool (rowLE a b) true

/-- Model of sort_values(by=all columns) on the list of rows: sort by
the lexicographic order over the full column tuple.  The sort kind of
pandas is irrelevant here: the key is the whole row, so equal keys are
equal rows and every sort produces the same list. -/
def sortRows (rows : List Row) : List Row := List.insertionSort rowLEP rows

deriving instance DecidableEq for Except

/-- Structured payload of the failure message of check_data_completeness
after the equality comparison has failed: either the row-level diff that
the outer merge produced, or (when the merge itself raised) the wrapped
merge error together with the fixed list of generic possible causes. -/
inductive CompletenessDetail where
  | rowDiffs (missingSample : List Row) (missingTotal : Nat)
      (extraSample : List Row) (extraTotal : Nat)
  | genericCauses (mergeError : String) (causes : List String)
deriving DecidableEq, Repr

/-- Structured payload of an AssertionError raised by the library,
mirroring the data interpolated into each source error message. -/
inductive AssertPayload where
  | duplicatesFound (total : Nat) (sample : List Row) (moreRows : Nat)
  | countMismatch (sourceCount targetCount diff : Nat)
  | completenessFailed (sourceCount targetCount diff : Nat)
      (detail : CompletenessDetail)
  | emptyDataset (msg : String)
  | nullsFound (nullColumns : List (String × Nat))
deriving DecidableEq, Repr

/-- Python exception outcome: AssertionError (an assert statement or
pd.testing failure) or ValueError (a configuration error). -/
inductive PyError where
  | assertionError (p : AssertPayload)
  | valueError (msg : String)
deriving DecidableEq, Repr

/-- Fixed list of generic possible causes appended to the completeness
failure message when the outer merge cannot be computed. -/
def genericCausesList : List String :=
  ["Data type mismatches between source and target",
   "Column name differences",
   "Date/datetime format inconsistencies"]

/-- Cell of a row at a named column, via the column list. -/
def getCell (cols : List String) (row : Row) (c : String) : Option Value :=
  (cols.zip row).lookup c

/-- Projection of a row onto a list of column names: the duplicate key
of df.duplicated(subset=column_names). -/
def rowKey (df : Frame) (cs : List String) (r : Row) : List (Option Value) :=
  cs.map (getCell df.cols r)

/-- Rows selected by df[df.duplicated(..., keep=False)]: with
keep=False every occurrence whose key appears at least twice in the
frame is marked, so the selection keeps each occurrence. -/
def duplicatedRows {K : Type} [DecidableEq K] (rows : List Row)
    (keyOf : Row → K) : List Row :=
  rows.filter (fun r => decide (2 ≤ (rows.map keyOf).count (keyOf r)))

namespace DataQualityLibrary

/-- Duplicate selection of check_duplicates, df[df.duplicated(...,
keep=False)].  The source guards on the Python truthiness of
column_names, so both None and the empty list select the all-columns
branch, whose key is the whole row. -/
def duplicatesOf (df : Frame) (column_names : Option (List String)) : List Row :=
  match column_names with
  | some cs =>
    if cs.isEmpty then duplicatedRows df.rows id
    else duplicatedRows df.rows (rowKey df cs)
  | none => duplicatedRows df.rows id

/-- Model of DataQualityLibrary.check_duplicates: assert that the
duplicate selection is empty, else report its size, its first
max_display rows, and how many more rows were not shown. -/
def check_duplicates (df : Frame) (column_names : Option (List String) := none)
    (max_display : Nat := 10) : Except PyError Unit :=
  let duplicates := duplicatesOf df column_names
  if 0 < duplicates.length then
    .error (.assertionError (.duplicatesFound duplicates.length
      (duplicates.take max_display)
      (if max_display < duplicates.length then duplicates.length - max_display
       else 0)))
  else .ok ()

/-- Agreement of two rows on the selected columns: the duplicate
relation that check_duplicates tests, whole-row equality when no
(non-empty) column list is given and key equality otherwise. -/
def sameKey (df : Frame) (column_names : Option (List String)) (r1 r2 : Row) : Prop :=
  match column_names with
  | some cs => if cs.isEmpty then r1 = r2 else rowKey df cs r1 = rowKey df cs r2
  | none => r1 = r2

instance sameKey_decidable (df : Frame) (column_names : Option (List String))
    (r1 r2 : Row) : Decidable (sameKey df column_names r1 r2) := by
  cases column_names with
  | none => exact decidable_of_iff (r1 = r2) (by simp [sameKey])
  | some cs =>
    by_cases h : cs.isEmpty
    · exact decidable_of_iff (r1 = r2) (by simp [sameKey, h])
    · exact decidable_of_iff (rowKey df cs r1 = rowKey df cs r2)
        (by simp [sameKey, h])

/-- Model of DataQualityLibrary.check_count: assert equal row counts,
reporting both counts and their absolute difference. -/
def check_count (source_df target_df : Frame) : Except PyError Unit :=
  let source_count := source_df.rows.length
  let target_count := target_df.rows.length
  if source_count = target_count then .ok ()
  else
    .error (.assertionError (.countMismatch source_count target_count
      (Int.natAbs ((source_count : Int) - (target_count : Int)))))

/-- Model of df.reset_index(drop=True): the integer index is not part
of the Frame model, so dropping and rebuilding it leaves the frame
unchanged; the pandas call returns a new frame (inplace=False). -/
def resetIndex (df : Frame) : Frame := df

/-- Model of df.sort_values(by=list(df.columns)): sort the rows by the
lexicographic order over the full column tuple (a fresh frame, since
inplace=False). -/
def sort_values_all (df : Frame) : Frame := ⟨df.cols, sortRows df.rows⟩

/-- Columns shared by the two frames, the default join key of
pd.merge. -/
def commonColumns (a b : Frame) : List String :=
  a.cols.filter (fun c => decide (c ∈ b.cols))

/-- Model of source.merge(target, how=outer, indicator=True) followed
by the left_only / right_only selections: rows of the left frame with
no key match on the right and conversely.  pd.merge raises when the
frames share no column to join on; that is the merge failure mode
representable in this model (column dtypes are not modelled). -/
def mergeOuterDiff (s t : Frame) : Except String (List Row × List Row) :=
  let common := commonColumns s t
  if common.isEmpty then .error "No common columns to perform merge on"
  else
    .ok (s.rows.filter (fun r =>
           !(t.rows.any (fun r2 => rowKey t common r2 == rowKey s common r))),
         t.rows.filter (fun r2 =>
           !(s.rows.any (fun r => rowKey s common r == rowKey t common r2))))

/-- Comparison stage of check_data_completeness, applied to the two
already sorted frames: pd.testing.assert_frame_equal (exact cell
equality in this float-free model), and on failure the structured
error message with counts, diff rows from the outer merge, or the
generic causes when the merge itself raises. -/
def compareSortedFrames (source_df_sorted target_df_sorted : Frame)
    (max_display : Nat) : Except PyError Unit :=
  if source_df_sorted = target_df_sorted then .ok ()
  else
    let sc := source_df_sorted.rows.length
    let tc := target_df_sorted.rows.length
    let diff := Int.natAbs ((sc : Int) - (tc : Int))
    match mergeOuterDiff source_df_sorted target_df_sorted with
    | .ok p =>
      .error (.assertionError (.completenessFailed sc tc diff
        (.rowDiffs (p.1.take max_display) p.1.length
          (p.2.take max_display) p.2.length)))
    | .error e =>
      .error (.assertionError (.completenessFailed sc tc diff
        (.genericCauses e genericCausesList)))

/-- Model of DataQualityLibrary.check_data_completeness: reset both
indices, sort both frames by all columns, then compare. -/
def check_data_completeness (source_df target_df : Frame)
    (max_display : Nat := 10) : Except PyError Unit :=
  let source_df_sorted := sort_values_all (resetIndex source_df)
  let target_df_sorted := sort_values_all (resetIndex target_df)
  compareSortedFrames source_df_sorted target_df_sorted max_display

/-- Model of pandas df.empty: true when either axis has length zero. -/
def emptyDF (df : Frame) : Bool := df.rows.isEmpty || df.cols.isEmpty

/-- Model of DataQualityLibrary.check_dataset_is_not_empty: assert the
frame is not empty, then assert it has at least one column. -/
def check_dataset_is_not_empty (df : Frame) : Except PyError Unit :=
  if emptyDF df then
    .error (.assertionError (.emptyDataset
      "Dataset is empty. Expected at least one row."))
  else if 0 < df.cols.length then .ok ()
  else .error (.assertionError (.emptyDataset "Dataset has no columns."))

/-- Count of nulls in a named column, df[column].isna().sum(). -/
def nullCount (df : Frame) (c : String) : Nat :=
  df.rows.countP (fun r => getCell df.cols r c == some Value.vNull)

/-- Loop body of check_not_null_values: walk the requested columns in
order, raising ValueError at the first one absent from the schema and
collecting (column, null count) pairs for columns that contain nulls. -/
def collectNullColumns (df : Frame) : List String → Except PyError (List (String × Nat))
  | [] => .ok []
  | c :: rest =>
    if c ∈ df.cols then
      match collectNullColumns df rest with
      | .ok tail =>
        .ok (if 0 < nullCount df c then (c, nullCount df c) :: tail else tail)
      | .error e => .error e
    else
      .error (.valueError ("Column " ++ c ++ " does not exist in the DataFrame."))

/-- Model of DataQualityLibrary.check_not_null_values: ValueError for a
missing column, otherwise assert that no requested column contains a
null, reporting the per-column null counts. -/
def check_not_null_values (df : Frame) (column_names : List String) :
    Except PyError Unit :=
  match collectNullColumns df column_names with
  | .error e => .error e
  | .ok null_columns =>
    if null_columns.length = 0 then .ok ()
    else .error (.assertionError (.nullsFound null_columns))

end DataQualityLibrary

/-- Observable resource events of the connector model: cursor close,
connection close, and query execution against the server. -/
inductive PGEvent where
  | cursorClosed
  | connectionClosed
  | queryExecuted (q : String)
deriving DecidableEq, Repr

/-- State of PostgresConnectorContextManager: the constructor arguments
plus the connection and cursor handles, both None until __enter__. -/
structure PostgresConnectorContextManager where
  db_host : String
  db_name : String
  db_port : Nat
  db_user : String
  db_password : String
  connection : Option Nat := none
  cursor : Option Nat := none
deriving DecidableEq, Repr

namespace PostgresConnectorContextManager

/-- Model of __enter__: psycopg2.connect either succeeds (the outcome
is an input of the model), setting the connection and then a cursor on
it, or raises, re-wrapped as a generic exception. -/
def pgEnter (cm : PostgresConnectorContextManager) (connectOk : Bool) :
    Except String PostgresConnectorContextManager :=
  if connectOk then .ok { cm with connection := some 0, cursor := some 0 }
  else .error "Failed to connect to database"

/-- Model of __exit__: close the cursor if present, then close the
connection if present; the exception information is ignored by the
source, so it plays no part here either.  The returned event list
records the closings in program order. -/
def pgExit (cm : PostgresConnectorContextManager) (_excInfo : Option String) :
    PostgresConnectorContextManager × List PGEvent :=
  let p1 :=
    if cm.cursor.isSome then
      ({ cm with cursor := none }, [PGEvent.cursorClosed])
    else (cm, ([] : List PGEvent))
  let p2 :=
    if p1.1.connection.isSome then
      ({ p1.1 with connection := none }, [PGEvent.connectionClosed])
    else (p1.1, ([] : List PGEvent))
  (p2.1, p1.2 ++ p2.2)

/-- Python with-statement semantics over the connector: __enter__; if
it raises, neither the body nor __exit__ runs; otherwise the body runs
and __exit__ always follows, on the success and failure paths alike. -/
def withPostgres {α : Type} (cm : PostgresConnectorContextManager)
    (connectOk : Bool)
    (body : PostgresConnectorContextManager → Except String α) :
    Except String α × List PGEvent :=
  match pgEnter cm connectOk with
  | .error e => (.error e, [])
  | .ok st =>
    let r := body st
    let p := pgExit st (match r with | .ok _ => none | .error e => some e)
    (r, p.2)

/-- Model of get_data_sql: guard on the Python truthiness of
self.connection (None is falsy, a connection object is truthy), then
run the query through pd.read_sql_query, wrapping its failures.  The
event list records every query actually sent to the server. -/
def get_data_sql (cm : PostgresConnectorContextManager) (query : String)
    (dbExec : String → Except String Frame) :
    Except String Frame × List PGEvent :=
  match cm.connection with
  | none =>
    (.error "Database connection is not established. Use this method within a context manager.",
     [])
  | some _ =>
    match dbExec query with
    | .ok df => (.ok df, [PGEvent.queryExecuted query])
    | .error e => (.error ("Failed to execute query: " ++ e),
                   [PGEvent.queryExecuted query])

end PostgresConnectorContextManager

/-- Heap cell allocation: pandas operations with inplace=False return a
fresh frame; the model appends it to the heap and returns its index. -/
def allocF (heap : List Frame) (f : Frame) : List Frame × Nat :=
  (heap ++ [f], heap.length)

/-- Read of a heap cell. -/
def readF (heap : List Frame) (i : Nat) : Frame := heap.getD i default

/-- Heap-passing model of check_data_completeness, making the
allocation discipline of the source explicit: reset_index(drop=True)
and sort_values are called with the default inplace=False and so
allocate fresh frames; the caller passes heap indices of its two
(fixture-shared) frames and the comparison runs on the fresh copies. -/
def check_data_completeness_heap (heap0 : List Frame) (si ti : Nat)
    (max_display : Nat) : List Frame × Except PyError Unit :=
  let source_df := readF heap0 si
  let target_df := readF heap0 ti
  let source_df_reset := DataQualityLibrary.resetIndex source_df
  let heap1 := (allocF heap0 source_df_reset).1
  let target_df_reset := DataQualityLibrary.resetIndex target_df
  let heap2 := (allocF heap1 target_df_reset).1
  let source_df_sorted := DataQualityLibrary.sort_values_all source_df_reset
  let heap3 := (allocF heap2 source_df_sorted).1
  let target_df_sorted := DataQualityLibrary.sort_values_all target_df_reset
  let heap4 := (allocF heap3 target_df_sorted).1
  (heap4,
   DataQualityLibrary.compareSortedFrames source_df_sorted target_df_sorted
     max_display)

/-- Sample source frame used by concrete witnesses. -/
def sampleSource : Frame :=
  ⟨["facility_name", "visit_date", "min_time_spent"],
   [[.vStr "A", .vStr "2024-01-01", .vInt 5],
    [.vStr "B", .vStr "2024-01-02", .vInt 3]]⟩

/-- Row-permutation of sampleSource. -/
def samplePermuted : Frame :=
  ⟨["facility_name", "visit_date", "min_time_spent"],
   [[.vStr "B", .vStr "2024-01-02", .vInt 3],
    [.vStr "A", .vStr "2024-01-01", .vInt 5]]⟩

/-- Like sampleSource but one cell differs. -/
def sampleOther : Frame :=
  ⟨["facility_name", "visit_date", "min_time_spent"],
   [[.vStr "A", .vStr "2024-01-01", .vInt 5],
    [.vStr "B", .vStr "2024-01-02", .vInt 4]]⟩

/-- One-column, one-row frame. -/
def sampleShort : Frame := ⟨["a"], [[.vInt 1]]⟩

/-- Frame sharing no column name with sampleShort. -/
def sampleDisjoint : Frame := ⟨["b"], [[.vInt 2]]⟩

/-- Frame with exactly one duplicated pair of rows. -/
def sampleDup : Frame :=
  ⟨["facility_name", "visit_date"],
   [[.vStr "Clinic", .vStr "2024-01-02"],
    [.vStr "Clinic", .vStr "2024-01-02"],
    [.vStr "X", .vStr "2024-01-03"]]⟩

/-- Frame whose first column contains a null. -/
def sampleNulls : Frame :=
  ⟨["a", "b"], [[.vNull, .vInt 1], [.vInt 2, .vInt 3]]⟩

theorem cmpL_eq_iff {α : Type} [LinearOrder α] (a b : α) :
    cmpL a b = .eq ↔ a = b := by
  unfold cmpL
  split_ifs with h1 h2
  · simp; exact ne_of_lt h1
  · simp; exact (ne_of_lt h2).symm
  · simp; exact le_antisymm (not_lt.mp h2) (not_lt.mp h1)

theorem cmpL_swap {α : Type} [LinearOrder α] (a b : α) :
    (cmpL a b).swap = cmpL b a := by
  unfold cmpL
  rcases lt_trichotomy a b with h | h | h
  · simp [h, lt_asymm h, Ordering.swap]
  · subst h
    simp [lt_irrefl, Ordering.swap]
  · simp [h, lt_asymm h, Ordering.swap]

theorem cmpL_ne_gt_iff {α : Type} [LinearOrder α] (a b : α) :
    cmpL a b ≠ .gt ↔ a ≤ b := by
  unfold cmpL
  split_ifs with h1 h2
  · simp; exact le_of_lt h1
  · simp; exact h2
  · simp; exact not_lt.mp h2

theorem cmpL_lt_iff {α : Type} [LinearOrder α] (a b : α) :
    cmpL a b = .lt ↔ a < b := by
  unfold cmpL
  split_ifs with h1 h2
  · simp [h1]
  · simp; exact le_of_lt h2
  · simp; exact not_lt.mp h1

theorem Value.cmp_eq_iff (a b : Value) : a.cmp b = .eq ↔ a = b := by
  cases a <;> cases b <;> simp [Value.cmp, cmpL_eq_iff]

theorem Value.cmp_swap (a b : Value) : (a.cmp b).swap = b.cmp a := by
  cases a <;> cases b <;> simp [Value.cmp, cmpL_swap] <;> rfl

theorem Value.cmp_lt_trans {a b c : Value} (h1 : a.cmp b = .lt)
    (h2 : b.cmp c = .lt) : a.cmp c = .lt := by
  cases a <;> cases b <;> cases c <;>
    simp_all [Value.cmp, cmpL_lt_iff] <;> exact lt_trans h1 h2

theorem rowCmp_eq_iff (a b : Row) : rowCmp a b = .eq ↔ a = b := by
  induction a generalizing b with
  | nil => cases b <;> simp [rowCmp]
  | cons x xs ih =>
    cases b with
    | nil => simp [rowCmp]
    | cons y ys =>
      simp only [rowCmp]
      cases hxy : Value.cmp x y with
      | eq =>
        have hx : x = y := (Value.cmp_eq_iff x y).mp hxy
        subst hx
        simp [ih]
      | lt =>
        have hx : x ≠ y := fun h => by
          subst h; rw [(Value.cmp_eq_iff x x).mpr rfl] at hxy; cases hxy
        simp [hx]
      | gt =>
        have hx : x ≠ y := fun h => by
          subst h; rw [(Value.cmp_eq_iff x x).mpr rfl] at hxy; cases hxy
        simp [hx]

theorem rowCmp_swap (a b : Row) : (rowCmp a b).swap = rowCmp b a := by
  induction a generalizing b with
  | nil => cases b <;> rfl
  | cons x xs ih =>
    cases b with
    | nil => rfl
    | cons y ys =>
      simp only [rowCmp]
      cases hxy : Value.cmp x y with
      | eq =>
        have h2 : Value.cmp y x = .eq := by
          rw [← Value.cmp_swap, hxy]; rfl
        rw [h2]; exact ih ys
      | lt =>
        have h2 : Value.cmp y x = .gt := by
          rw [← Value.cmp_swap, hxy]; rfl
        rw [h2]; rfl
      | gt =>
        have h2 : Value.cmp y x = .lt := by
          rw [← Value.cmp_swap, hxy]; rfl
        rw [h2]; rfl

theorem rowCmp_nil_ne_gt (b : Row) : rowCmp [] b ≠ .gt := by
  cases b <;> simp [rowCmp]

theorem rowCmp_ne_gt_trans {a b c : Row} (h1 : rowCmp a b ≠ .gt)
    (h2 : rowCmp b c ≠ .gt) : rowCmp a c ≠ .gt := by
  induction a generalizing b c with
  | nil => exact rowCmp_nil_ne_gt c
  | cons x xs ih =>
    cases b with
    | nil => simp [rowCmp] at h1
    | cons y ys =>
      cases c with
      | nil => simp [rowCmp] at h2
      | cons z zs =>
        simp only [rowCmp] at h1 h2 ⊢
        cases hxy : Value.cmp x y with
        | eq =>
          have hx : x = y := (Value.cmp_eq_iff x y).mp hxy
          subst hx
          rw [hxy] at h1
          cases hyz : Value.cmp x z with
          | eq => rw [hyz] at h2; exact ih h1 h2
          | lt => simp
          | gt => rw [hyz] at h2; exact absurd rfl h2
        | lt =>
          cases hyz : Value.cmp y z with
          | eq =>
            have hy : y = z := (Value.cmp_eq_iff y z).mp hyz
            subst hy
            rw [hxy]
            simp
          | lt =>
            rw [Value.cmp_lt_trans hxy hyz]
            simp
          | gt => rw [hyz] at h2; exact absurd rfl h2
        | gt => rw [hxy] at h1; exact absurd rfl h1

theorem rowLE_true_iff (a b : Row) : rowLE a b = true ↔ rowCmp a b ≠ .gt := by
  rcases h : rowCmp a b with h1 | h1 | h1 <;> simp [rowLE, h] <;> decide

theorem rowLE_total (a b : Row) : (rowLE a b || rowLE b a) = true := by
  rcases h : rowCmp a b with h1 | h1 | h1
  · have hl : rowLE a b = true := by rw [rowLE_true_iff, h]; simp
    simp [hl]
  · have hl : rowLE a b = true := by rw [rowLE_true_iff, h]; simp
    simp [hl]
  · have h2 : rowCmp b a = .lt := by rw [← rowCmp_swap, h]; rfl
    have hl : rowLE b a = true := by rw [rowLE_true_iff, h2]; simp
    simp [hl]

theorem rowLE_trans (a b c : Row) (h1 : rowLE a b = true)
    (h2 : rowLE b c = true) : rowLE a c = true := by
  rw [rowLE_true_iff] at h1 h2 ⊢
  exact rowCmp_ne_gt_trans h1 h2

theorem rowLE_antisymm {a b : Row} (h1 : rowLE a b = true)
    (h2 : rowLE b a = true) : a = b := by
  rw [rowLE_true_iff] at h1 h2
  rcases h : rowCmp a b with h3 | h3 | h3
  · exfalso
    apply h2
    rw [← rowCmp_swap, h]
    rfl
  · exact (rowCmp_eq_iff a b).mp h
  · exact absurd h h1

instance rowLEP_isAntisymm : IsAntisymm Row rowLEP :=
  ⟨fun _ _ h1 h2 => rowLE_antisymm h1 h2⟩

instance rowLEP_isTotal : IsTotal Row rowLEP :=
  ⟨fun a b => by
    have h := rowLE_total a b
    rcases Bool.or_eq_true_iff.mp h with h1 | h1
    · exact Or.inl h1
    · exact Or.inr h1⟩

instance rowLEP_isTrans : IsTrans Row rowLEP :=
  ⟨fun a b c h1 h2 => rowLE_trans a b c h1 h2⟩

theorem sortRows_perm (rows : List Row) : (sortRows rows).Perm rows :=
  List.perm_insertionSort rowLEP rows

theorem sortRows_sorted (rows : List Row) :
    List.Sorted rowLEP (sortRows rows) :=
  List.sorted_insertionSort rowLEP rows

theorem sortRows_eq_iff_perm (l1 l2 : List Row) :
    sortRows l1 = sortRows l2 ↔ l1.Perm l2 := by
  constructor
  · intro h
    exact ((sortRows_perm l1).symm.trans (h ▸ sortRows_perm l2)).symm.symm
  · intro h
    exact List.eq_of_perm_of_sorted
      (((sortRows_perm l1).trans h).trans (sortRows_perm l2).symm)
      (sortRows_sorted l1) (sortRows_sorted l2)

theorem sortRows_length (rows : List Row) :
    (sortRows rows).length = rows.length :=
  (sortRows_perm rows).length_eq

/-- C4: check_count passes exactly when the two row counts are equal,
regardless of column names, column order, or cell contents; on failure
the assertion payload reports both counts and the absolute difference
of the row counts. -/
theorem check_count_pass_iff_equal_counts (s t : Frame) :
    (DataQualityLibrary.check_count s t = .ok () ↔
      s.rows.length = t.rows.length) ∧
    (s.rows.length ≠ t.rows.length →
      DataQualityLibrary.check_count s t = .error (.assertionError
        (.countMismatch s.rows.length t.rows.length
          (Int.natAbs ((s.rows.length : Int) - (t.rows.length : Int)))))) := by
  constructor
  · simp only [DataQualityLibrary.check_count]
    split_ifs with h
    · simp [h]
    · simp [h]
  · intro h
    simp only [DataQualityLibrary.check_count]
    rw [if_neg h]

/-- Witness for C4 at concrete frames with 2 and 3 rows. -/
theorem check_count_pass_iff_equal_counts_witness :
    DataQualityLibrary.check_count sampleSource sampleDup =
      .error (.assertionError (.countMismatch 2 3 1)) :=
  (check_count_pass_iff_equal_counts sampleSource sampleDup).2 (by decide)

/-- C5: check_dataset_is_not_empty raises an assertion failure on every
frame with zero rows or zero columns, and returns normally on every
frame with at least one row and at least one column. -/
theorem check_dataset_is_not_empty_spec (df : Frame) :
    (DataQualityLibrary.check_dataset_is_not_empty df = .ok () ↔
      (df.rows ≠ [] ∧ df.cols ≠ [])) ∧
    ((df.rows = [] ∨ df.cols = []) →
      ∃ m, DataQualityLibrary.check_dataset_is_not_empty df =
        .error (.assertionError (.emptyDataset m))) := by
  constructor
  · simp only [DataQualityLibrary.check_dataset_is_not_empty,
      DataQualityLibrary.emptyDF]
    split_ifs with h1 h2
    · constructor
      · intro h; cases h
      · intro h
        rcases Bool.or_eq_true_iff.mp h1 with h3 | h3
        · exact absurd (List.isEmpty_iff.mp h3) h.1
        · exact absurd (List.isEmpty_iff.mp h3) h.2
    · constructor
      · intro _
        constructor
        · intro hh
          apply h1
          simp [hh]
        · intro hh
          apply h1
          simp [hh]
      · intro _; rfl
    · constructor
      · intro h; cases h
      · intro h
        exfalso
        apply h2
        rcases List.length_pos.mpr h.2 with h3
        omega
  · intro h
    simp only [DataQualityLibrary.check_dataset_is_not_empty,
      DataQualityLibrary.emptyDF]
    have he : (df.rows.isEmpty || df.cols.isEmpty) = true := by
      rcases h with h | h <;> simp [h]
    rw [if_pos he]
    exact ⟨_, rfl⟩

/-- Witness for C5 at a frame with one column and zero rows. -/
theorem check_dataset_is_not_empty_spec_witness :
    ∃ m, DataQualityLibrary.check_dataset_is_not_empty ⟨["a"], []⟩ =
      .error (.assertionError (.emptyDataset m)) :=
  (check_dataset_is_not_empty_spec ⟨["a"], []⟩).2 (Or.inl rfl)

/-- C8: whenever the context-manager block was entered (the connection
attempt succeeded), leaving the block closes the cursor and then the
connection, in that order, for every body outcome, success and raised
exception alike. -/
theorem withPostgres_closes_cursor_then_connection {α : Type}
    (cm : PostgresConnectorContextManager)
    (body : PostgresConnectorContextManager → Except String α) :
    (PostgresConnectorContextManager.withPostgres cm true body).2 =
      [PGEvent.cursorClosed, PGEvent.connectionClosed] := rfl

/-- C9: passing the empty column list to check_duplicates behaves
identically to passing no list at all, because the source guards on
Python truthiness and the empty list is falsy: both select the
all-columns duplicate check. -/
theorem check_duplicates_empty_list_eq_none (df : Frame) (max_display : Nat) :
    DataQualityLibrary.check_duplicates df (some []) max_display =
      DataQualityLibrary.check_duplicates df none max_display := rfl

/-- C10: whenever the connection is None (the method is called outside
an active context-manager block), get_data_sql raises the
not-established error and sends no query whatsoever to the server. -/
theorem get_data_sql_requires_connection
    (cm : PostgresConnectorContextManager) (query : String)
    (dbExec : String → Except String Frame) (h : cm.connection = none) :
    PostgresConnectorContextManager.get_data_sql cm query dbExec =
      (.error "Database connection is not established. Use this method within a context manager.",
       []) := by
  simp only [PostgresConnectorContextManager.get_data_sql, h]

/-- Witness for C10 at a freshly constructed connector. -/
theorem get_data_sql_requires_connection_witness :
    PostgresConnectorContextManager.get_data_sql
      ⟨"localhost", "mydatabase", 5434, "u", "p", none, none⟩ "SELECT 1"
      (fun _ => .ok sampleSource) =
      (.error "Database connection is not established. Use this method within a context manager.",
       []) :=
  get_data_sql_requires_connection
    ⟨"localhost", "mydatabase", 5434, "u", "p", none, none⟩ "SELECT 1"
    (fun _ => .ok sampleSource) rfl

theorem compareSortedFrames_ok_iff (s t : Frame) (maxd : Nat) :
    DataQualityLibrary.compareSortedFrames s t maxd = .ok () ↔ s = t := by
  simp only [DataQualityLibrary.compareSortedFrames]
  split_ifs with h
  · simp [h]
  · constructor
    · intro hc
      exfalso
      rcases hm : DataQualityLibrary.mergeOuterDiff s t with e | p
      · rw [hm] at hc; cases hc
      · rw [hm] at hc; cases hc
    · intro hc; exact absurd hc h

theorem compareSortedFrames_ne (s t : Frame) (maxd : Nat) (h : s ≠ t) :
    ∃ p, DataQualityLibrary.compareSortedFrames s t maxd =
      .error (.assertionError p) := by
  simp only [DataQualityLibrary.compareSortedFrames]
  rw [if_neg h]
  rcases hm : DataQualityLibrary.mergeOuterDiff s t with e | p
  · exact ⟨_, rfl⟩
  · exact ⟨_, rfl⟩

/-- C1: with matching schemas, check_data_completeness passes exactly
on row-permutations (it sorts both frames by the full column tuple
before comparing), raises an assertion failure whenever the row
multisets differ, and its whole outcome is invariant under permuting
the rows of either input. -/
theorem check_data_completeness_order_insensitive (A B : Frame) (maxd : Nat) :
    (A.cols = B.cols →
      (DataQualityLibrary.check_data_completeness A B maxd = .ok () ↔
        A.rows.Perm B.rows)) ∧
    (A.cols = B.cols → ¬ A.rows.Perm B.rows →
      ∃ p, DataQualityLibrary.check_data_completeness A B maxd =
        .error (.assertionError p)) ∧
    (∀ A2 B2 : Frame, A2.cols = A.cols → A2.rows.Perm A.rows →
      B2.cols = B.cols → B2.rows.Perm B.rows →
      DataQualityLibrary.check_data_completeness A2 B2 maxd =
        DataQualityLibrary.check_data_completeness A B maxd) := by
  refine ⟨?_, ?_, ?_⟩
  · intro hc
    rw [show DataQualityLibrary.check_data_completeness A B maxd =
        DataQualityLibrary.compareSortedFrames ⟨A.cols, sortRows A.rows⟩
          ⟨B.cols, sortRows B.rows⟩ maxd from rfl]
    rw [compareSortedFrames_ok_iff]
    constructor
    · intro h
      injection h with h1 h2
      exact (sortRows_eq_iff_perm _ _).mp h2
    · intro h
      have h2 : sortRows A.rows = sortRows B.rows :=
        (sortRows_eq_iff_perm _ _).mpr h
      rw [hc, h2]
  · intro hc hp
    rw [show DataQualityLibrary.check_data_completeness A B maxd =
        DataQualityLibrary.compareSortedFrames ⟨A.cols, sortRows A.rows⟩
          ⟨B.cols, sortRows B.rows⟩ maxd from rfl]
    apply compareSortedFrames_ne
    intro h
    injection h with h1 h2
    exact hp ((sortRows_eq_iff_perm _ _).mp h2)
  · intro A2 B2 hac hap hbc hbp
    rw [show DataQualityLibrary.check_data_completeness A2 B2 maxd =
        DataQualityLibrary.compareSortedFrames ⟨A2.cols, sortRows A2.rows⟩
          ⟨B2.cols, sortRows B2.rows⟩ maxd from rfl]
    rw [show DataQualityLibrary.check_data_completeness A B maxd =
        DataQualityLibrary.compareSortedFrames ⟨A.cols, sortRows A.rows⟩
          ⟨B.cols, sortRows B.rows⟩ maxd from rfl]
    rw [hac, hbc, (sortRows_eq_iff_perm _ _).mpr hap,
      (sortRows_eq_iff_perm _ _).mpr hbp]

/-- Witness for C1: a permuted pair passes. -/
theorem check_data_completeness_order_insensitive_witness :
    DataQualityLibrary.check_data_completeness sampleSource samplePermuted 10 =
      .ok () :=
  ((check_data_completeness_order_insensitive sampleSource samplePermuted
    10).1 rfl).mpr (by decide)

/-- C6: when the sorted frames differ but the outer merge cannot be
computed (here: the frames share no column to join on), the check still
raises an assertion failure whose payload carries the row counts, their
absolute difference, and the fixed generic list of possible causes in
place of specific row diffs. -/
theorem check_data_completeness_merge_failure (A B : Frame) (maxd : Nat)
    (h1 : ¬ (A.cols = B.cols ∧ sortRows A.rows = sortRows B.rows))
    (h2 : A.cols.filter (fun c => decide (c ∈ B.cols)) = []) :
    DataQualityLibrary.check_data_completeness A B maxd =
      .error (.assertionError
        (.completenessFailed A.rows.length B.rows.length
          (Int.natAbs ((A.rows.length : Int) - (B.rows.length : Int)))
          (.genericCauses "No common columns to perform merge on"
            genericCausesList))) := by
  have hne : (⟨A.cols, sortRows A.rows⟩ : Frame) ≠ ⟨B.cols, sortRows B.rows⟩ := by
    intro h
    injection h with h3 h4
    exact h1 ⟨h3, h4⟩
  rw [show DataQualityLibrary.check_data_completeness A B maxd =
      DataQualityLibrary.compareSortedFrames ⟨A.cols, sortRows A.rows⟩
        ⟨B.cols, sortRows B.rows⟩ maxd from rfl]
  simp only [DataQualityLibrary.compareSortedFrames]
  rw [if_neg hne]
  have hm : DataQualityLibrary.mergeOuterDiff ⟨A.cols, sortRows A.rows⟩
      ⟨B.cols, sortRows B.rows⟩ = .error "No common columns to perform merge on" := by
    simp only [DataQualityLibrary.mergeOuterDiff, DataQualityLibrary.commonColumns]
    rw [show (⟨A.cols, sortRows A.rows⟩ : Frame).cols = A.cols from rfl,
      show (⟨B.cols, sortRows B.rows⟩ : Frame).cols = B.cols from rfl, h2]
    rfl
  rw [hm]
  simp [sortRows_length]

/-- Witness for C6: frames with disjoint column names. -/
theorem check_data_completeness_merge_failure_witness :
    DataQualityLibrary.check_data_completeness sampleShort sampleDisjoint 10 =
      .error (.assertionError
        (.completenessFailed 1 1 0
          (.genericCauses "No common columns to perform merge on"
            genericCausesList))) :=
  check_data_completeness_merge_failure sampleShort sampleDisjoint 10
    (by decide) (by decide)

theorem readF_append_at (h : List Frame) (f : Frame) (rest : List Frame) :
    readF (h ++ f :: rest) h.length = f := by
  unfold readF
  induction h with
  | nil => rfl
  | cons a as ih => simpa using ih

/-- C7: the heap-passing model of check_data_completeness only ever
appends freshly allocated frames to the heap — every pre-existing frame,
in particular the two inputs, is left exactly as it was — and its
verdict coincides with the pure function of the two input frames. -/
theorem check_data_completeness_preserves_inputs
    (heap : List Frame) (si ti maxd : Nat) :
    (∃ allocs, (check_data_completeness_heap heap si ti maxd).1 =
      heap ++ allocs) ∧
    (check_data_completeness_heap heap si ti maxd).2 =
      DataQualityLibrary.check_data_completeness (readF heap si)
        (readF heap ti) maxd := by
  constructor
  · refine ⟨[DataQualityLibrary.resetIndex (readF heap si),
      DataQualityLibrary.resetIndex (readF heap ti),
      DataQualityLibrary.sort_values_all
        (DataQualityLibrary.resetIndex (readF heap si)),
      DataQualityLibrary.sort_values_all
        (DataQualityLibrary.resetIndex (readF heap ti))], ?_⟩
    simp [check_data_completeness_heap, allocF]
  · rfl

theorem countKey_eq_countP {K : Type} [DecidableEq K] (rows : List Row)
    (keyOf : Row → K) (r : Row) :
    (rows.map keyOf).count (keyOf r) =
      rows.countP (fun r2 => decide (keyOf r2 = keyOf r)) := by
  rw [List.count_eq_countP, List.countP_map]
  apply List.countP_congr
  intro r2 _
  simp [Function.comp]

theorem duplicatedRows_eq_nil_iff {K : Type} [DecidableEq K] (rows : List Row)
    (keyOf : Row → K) :
    duplicatedRows rows keyOf = [] ↔
      List.Pairwise (fun r1 r2 => keyOf r1 ≠ keyOf r2) rows := by
  unfold duplicatedRows
  rw [List.filter_eq_nil_iff]
  constructor
  · intro h
    have hnodup : (rows.map keyOf).Nodup := by
      rw [List.nodup_iff_count_le_one]
      intro k
      by_cases hk : k ∈ rows.map keyOf
      · rcases List.mem_map.mp hk with ⟨r, hr, hkr⟩
        have h2 := h r hr
        simp only [decide_eq_true_eq] at h2
        rw [← hkr]
        omega
      · rw [List.count_eq_zero.mpr hk]
        omega
    exact List.pairwise_map.mp hnodup
  · intro h r hr
    have hnodup : (rows.map keyOf).Nodup := List.pairwise_map.mpr h
    have h2 := List.nodup_iff_count_le_one.mp hnodup (keyOf r)
    simp only [decide_eq_true_eq]
    omega

theorem duplicatedRows_two_le {K : Type} [DecidableEq K] (rows : List Row)
    (keyOf : Row → K) (h : duplicatedRows rows keyOf ≠ []) :
    2 ≤ (duplicatedRows rows keyOf).length := by
  rcases List.exists_mem_of_ne_nil _ h with ⟨r, hr⟩
  unfold duplicatedRows at hr ⊢
  rcases List.mem_filter.mp hr with ⟨hmem, hflag⟩
  have hcount : 2 ≤ (rows.map keyOf).count (keyOf r) := by
    simpa using hflag
  calc 2 ≤ (rows.map keyOf).count (keyOf r) := hcount
    _ = rows.countP (fun r2 => decide (keyOf r2 = keyOf r)) :=
        countKey_eq_countP rows keyOf r
    _ ≤ rows.countP
          (fun r2 => decide (2 ≤ (rows.map keyOf).count (keyOf r2))) := by
        apply List.countP_mono_left
        intro a _ ha
        simp only [decide_eq_true_eq] at ha ⊢
        rw [ha]
        exact hcount
    _ = (rows.filter
          (fun r2 => decide (2 ≤ (rows.map keyOf).count (keyOf r2)))).length :=
        List.countP_eq_length_filter _ _

theorem duplicatedRows_eq_filter_countP {K : Type} [DecidableEq K]
    (rows : List Row) (keyOf : Row → K) :
    duplicatedRows rows keyOf =
      rows.filter (fun r =>
        decide (2 ≤ rows.countP (fun r2 => decide (keyOf r2 = keyOf r)))) := by
  unfold duplicatedRows
  apply List.filter_congr
  intro r _
  rw [decide_eq_decide]
  rw [countKey_eq_countP rows keyOf r]

theorem duplicatedRows_single_pair {K : Type} [DecidableEq K] (rows : List Row)
    (keyOf : Row → K) (r0 : Row)
    (h2 : rows.countP (fun r2 => decide (keyOf r2 = keyOf r0)) = 2)
    (hother : ∀ r ∈ rows, keyOf r ≠ keyOf r0 →
      rows.countP (fun r2 => decide (keyOf r2 = keyOf r)) ≤ 1) :
    (duplicatedRows rows keyOf).length = 2 := by
  unfold duplicatedRows
  rw [← List.countP_eq_length_filter]
  have hcongr : rows.countP
      (fun r => decide (2 ≤ (rows.map keyOf).count (keyOf r))) =
      rows.countP (fun r2 => decide (keyOf r2 = keyOf r0)) := by
    apply List.countP_congr
    intro r hr
    simp only [decide_eq_true_eq]
    rw [countKey_eq_countP rows keyOf r]
    by_cases hk : keyOf r = keyOf r0
    · have he : rows.countP (fun r2 => decide (keyOf r2 = keyOf r)) =
          rows.countP (fun r2 => decide (keyOf r2 = keyOf r0)) := by
        apply List.countP_congr
        intro a _
        simp only [decide_eq_true_eq]
        rw [hk]
      rw [he, h2]
      constructor
      · intro _; exact hk
      · intro _; omega
    · have hle := hother r hr hk
      constructor
      · intro hge; omega
      · intro hc; exact absurd hc hk
  rw [hcongr, h2]

theorem check_duplicates_generic {K : Type} [DecidableEq K] (df : Frame)
    (column_names : Option (List String)) (max_display : Nat)
    (keyOf : Row → K)
    (hdup : DataQualityLibrary.duplicatesOf df column_names =
      duplicatedRows df.rows keyOf)
    (hkey : ∀ r1 r2, DataQualityLibrary.sameKey df column_names r1 r2 ↔ keyOf r1 = keyOf r2) :
    (DataQualityLibrary.check_duplicates df column_names max_display = .ok () ↔
      List.Pairwise (fun r1 r2 => ¬ DataQualityLibrary.sameKey df column_names r1 r2) df.rows) ∧
    (¬ List.Pairwise (fun r1 r2 => ¬ DataQualityLibrary.sameKey df column_names r1 r2) df.rows →
      DataQualityLibrary.check_duplicates df column_names max_display =
        .error (.assertionError (.duplicatesFound
          (DataQualityLibrary.duplicatesOf df column_names).length
          ((DataQualityLibrary.duplicatesOf df column_names).take max_display)
          (if max_display <
              (DataQualityLibrary.duplicatesOf df column_names).length
           then (DataQualityLibrary.duplicatesOf df column_names).length -
             max_display
           else 0))) ∧
      2 ≤ (DataQualityLibrary.duplicatesOf df column_names).length) ∧
    (DataQualityLibrary.duplicatesOf df column_names =
      df.rows.filter (fun r => decide (2 ≤ df.rows.countP
        (fun r2 => decide (DataQualityLibrary.sameKey df column_names r2 r))))) ∧
    (∀ r0,
      df.rows.countP (fun r2 => decide (DataQualityLibrary.sameKey df column_names r2 r0)) = 2 →
      (∀ r ∈ df.rows, ¬ DataQualityLibrary.sameKey df column_names r r0 →
        df.rows.countP (fun r2 => decide (DataQualityLibrary.sameKey df column_names r2 r)) ≤ 1) →
      (DataQualityLibrary.duplicatesOf df column_names).length = 2) := by
  have hpair : List.Pairwise
      (fun r1 r2 => ¬ DataQualityLibrary.sameKey df column_names r1 r2) df.rows ↔
      List.Pairwise (fun r1 r2 => keyOf r1 ≠ keyOf r2) df.rows := by
    constructor
    · exact List.Pairwise.imp (fun h hk => h ((hkey _ _).mpr hk))
    · exact List.Pairwise.imp (fun h hs => h ((hkey _ _).mp hs))
  have hcount : ∀ r,
      df.rows.countP (fun r2 => decide (DataQualityLibrary.sameKey df column_names r2 r)) =
      df.rows.countP (fun r2 => decide (keyOf r2 = keyOf r)) := by
    intro r
    apply List.countP_congr
    intro a _
    simp only [decide_eq_true_eq]
    exact hkey a r
  refine ⟨?_, ?_, ?_, ?_⟩
  · rw [hpair]
    simp only [DataQualityLibrary.check_duplicates, hdup]
    split_ifs with h
    · constructor
      · intro hc; cases hc
      · intro hp
        have h0 : duplicatedRows df.rows keyOf = [] :=
          (duplicatedRows_eq_nil_iff _ _).mpr hp
        rw [h0] at h
        simp at h
    · constructor
      · intro _
        apply (duplicatedRows_eq_nil_iff _ _).mp
        apply List.length_eq_zero.mp
        omega
      · intro _; rfl
  · intro hnp
    have hne : duplicatedRows df.rows keyOf ≠ [] := by
      intro h0
      exact hnp (hpair.mpr ((duplicatedRows_eq_nil_iff _ _).mp h0))
    have hlen : 0 < (duplicatedRows df.rows keyOf).length :=
      List.length_pos.mpr hne
    constructor
    · simp only [DataQualityLibrary.check_duplicates, hdup]
      rw [if_pos hlen]
    · rw [hdup]
      exact duplicatedRows_two_le _ _ hne
  · rw [hdup, duplicatedRows_eq_filter_countP]
    apply List.filter_congr
    intro r _
    rw [decide_eq_decide, hcount r]
  · intro r0 h2 hother
    rw [hdup]
    apply duplicatedRows_single_pair df.rows keyOf r0
    · rw [← hcount r0]; exact h2
    · intro r hr hk
      rw [← hcount r]
      exact hother r hr (fun hs => hk ((hkey _ _).mp hs))

/-- C2: check_duplicates passes exactly when no two rows of the frame
agree on the selected columns (the given list, or all columns when the
list is absent); otherwise it raises an assertion failure reporting the
whole flagged selection — every occurrence of each duplicated row, so
at least two rows, truncated for display to max_display with the count
of the rows not shown.  The flagged selection is exactly the rows whose
key matches at least two rows of the frame, and when exactly one
duplicated pair exists the reported duplicate count is 2. -/
theorem check_duplicates_flags_all_occurrences (df : Frame)
    (column_names : Option (List String)) (max_display : Nat) :
    (DataQualityLibrary.check_duplicates df column_names max_display = .ok () ↔
      List.Pairwise (fun r1 r2 => ¬ DataQualityLibrary.sameKey df column_names r1 r2) df.rows) ∧
    (¬ List.Pairwise (fun r1 r2 => ¬ DataQualityLibrary.sameKey df column_names r1 r2) df.rows →
      DataQualityLibrary.check_duplicates df column_names max_display =
        .error (.assertionError (.duplicatesFound
          (DataQualityLibrary.duplicatesOf df column_names).length
          ((DataQualityLibrary.duplicatesOf df column_names).take max_display)
          (if max_display <
              (DataQualityLibrary.duplicatesOf df column_names).length
           then (DataQualityLibrary.duplicatesOf df column_names).length -
             max_display
           else 0))) ∧
      2 ≤ (DataQualityLibrary.duplicatesOf df column_names).length) ∧
    (DataQualityLibrary.duplicatesOf df column_names =
      df.rows.filter (fun r => decide (2 ≤ df.rows.countP
        (fun r2 => decide (DataQualityLibrary.sameKey df column_names r2 r))))) ∧
    (∀ r0,
      df.rows.countP (fun r2 => decide (DataQualityLibrary.sameKey df column_names r2 r0)) = 2 →
      (∀ r ∈ df.rows, ¬ DataQualityLibrary.sameKey df column_names r r0 →
        df.rows.countP (fun r2 => decide (DataQualityLibrary.sameKey df column_names r2 r)) ≤ 1) →
      (DataQualityLibrary.duplicatesOf df column_names).length = 2) := by
  rcases column_names with _ | cs
  · exact check_duplicates_generic df none max_display id rfl
      (fun r1 r2 => by simp [DataQualityLibrary.sameKey])
  · by_cases hcs : cs.isEmpty
    · have hcs2 : cs = [] := List.isEmpty_iff.mp hcs
      subst hcs2
      exact check_duplicates_generic df (some []) max_display id rfl
        (fun r1 r2 => by simp [DataQualityLibrary.sameKey])
    · refine check_duplicates_generic df (some cs) max_display
        (rowKey df cs) ?_ ?_
      · simp only [DataQualityLibrary.duplicatesOf]
        rw [if_neg hcs]
      · intro r1 r2
        simp [DataQualityLibrary.sameKey, hcs]

/-- Witness for C2: a frame with exactly one duplicated pair over two
selected columns fails with a reported duplicate count of 2, keeping
both occurrences. -/
theorem check_duplicates_flags_all_occurrences_witness :
    DataQualityLibrary.check_duplicates sampleDup
      (some ["facility_name", "visit_date"]) 10 =
      .error (.assertionError (.duplicatesFound 2
        [[.vStr "Clinic", .vStr "2024-01-02"],
         [.vStr "Clinic", .vStr "2024-01-02"]] 0)) ∧
    (DataQualityLibrary.duplicatesOf sampleDup
      (some ["facility_name", "visit_date"])).length = 2 := by
  constructor
  · exact ((check_duplicates_flags_all_occurrences sampleDup
      (some ["facility_name", "visit_date"]) 10).2.1 (by decide)).1
  · exact (check_duplicates_flags_all_occurrences sampleDup
      (some ["facility_name", "visit_date"]) 10).2.2.2
      [.vStr "Clinic", .vStr "2024-01-02"] (by decide)
      (by decide)

theorem collectNullColumns_all_present (df : Frame) (cs : List String)
    (h : ∀ c ∈ cs, c ∈ df.cols) :
    DataQualityLibrary.collectNullColumns df cs =
      .ok ((cs.filter (fun c =>
          decide (0 < DataQualityLibrary.nullCount df c))).map
        (fun c => (c, DataQualityLibrary.nullCount df c))) := by
  induction cs with
  | nil => rfl
  | cons c rest ih =>
    have hc : c ∈ df.cols := h c (List.mem_cons_self c rest)
    have hr : ∀ x ∈ rest, x ∈ df.cols :=
      fun x hx => h x (List.mem_cons_of_mem c hx)
    simp only [DataQualityLibrary.collectNullColumns]
    rw [if_pos hc, ih hr]
    by_cases hn : 0 < DataQualityLibrary.nullCount df c
    · simp [hn]
    · simp [hn]

theorem collectNullColumns_missing (df : Frame) (cs : List String)
    (h : ∃ c ∈ cs, c ∉ df.cols) :
    ∃ m, DataQualityLibrary.collectNullColumns df cs =
      .error (.valueError m) := by
  induction cs with
  | nil =>
    rcases h with ⟨c, hc, _⟩
    cases hc
  | cons c rest ih =>
    by_cases hc : c ∈ df.cols
    · have hr : ∃ x ∈ rest, x ∉ df.cols := by
        rcases h with ⟨x, hx, hnx⟩
        rcases List.mem_cons.mp hx with h1 | h1
        · subst h1; exact absurd hc hnx
        · exact ⟨x, h1, hnx⟩
      rcases ih hr with ⟨m, hm⟩
      refine ⟨m, ?_⟩
      simp only [DataQualityLibrary.collectNullColumns]
      rw [if_pos hc, hm]
    · refine ⟨"Column " ++ c ++ " does not exist in the DataFrame.", ?_⟩
      simp only [DataQualityLibrary.collectNullColumns]
      rw [if_neg hc]

theorem check_not_null_values_of_ok (df : Frame) (cs : List String)
    (v : List (String × Nat))
    (h : DataQualityLibrary.collectNullColumns df cs = .ok v) :
    DataQualityLibrary.check_not_null_values df cs =
      if v.length = 0 then .ok ()
      else .error (.assertionError (.nullsFound v)) := by
  unfold DataQualityLibrary.check_not_null_values
  rw [h]

theorem check_not_null_values_of_error (df : Frame) (cs : List String)
    (e : PyError)
    (h : DataQualityLibrary.collectNullColumns df cs = .error e) :
    DataQualityLibrary.check_not_null_values df cs = .error e := by
  unfold DataQualityLibrary.check_not_null_values
  rw [h]

/-- C3: check_not_null_values raises a ValueError (a configuration
error, not an assertion failure) whenever some requested column is
absent from the schema; when every requested column exists it returns
normally exactly when none of them contains a null, and otherwise
raises an assertion failure carrying the per-column null counts of the
columns that do contain nulls. -/
theorem check_not_null_values_spec (df : Frame) (column_names : List String) :
    ((∃ c ∈ column_names, c ∉ df.cols) →
      ∃ m, DataQualityLibrary.check_not_null_values df column_names =
        .error (.valueError m)) ∧
    ((∀ c ∈ column_names, c ∈ df.cols) →
      ((DataQualityLibrary.check_not_null_values df column_names = .ok () ↔
        ∀ c ∈ column_names, DataQualityLibrary.nullCount df c = 0) ∧
       ((∃ c ∈ column_names, 0 < DataQualityLibrary.nullCount df c) →
        DataQualityLibrary.check_not_null_values df column_names =
          .error (.assertionError (.nullsFound
            ((column_names.filter (fun c =>
                decide (0 < DataQualityLibrary.nullCount df c))).map
              (fun c => (c, DataQualityLibrary.nullCount df c)))))))) := by
  have hiff : ((column_names.filter (fun c =>
      decide (0 < DataQualityLibrary.nullCount df c))).map
        (fun c => (c, DataQualityLibrary.nullCount df c))).length = 0 ↔
      ∀ c ∈ column_names, DataQualityLibrary.nullCount df c = 0 := by
    rw [List.length_map, List.length_eq_zero, List.filter_eq_nil_iff]
    constructor
    · intro hall c hcmem
      have h2 := hall c hcmem
      simp only [decide_eq_true_eq] at h2
      omega
    · intro hall c hcmem
      simp only [decide_eq_true_eq]
      rw [hall c hcmem]
      omega
  constructor
  · intro h
    rcases collectNullColumns_missing df column_names h with ⟨m, hm⟩
    exact ⟨m, check_not_null_values_of_error df column_names _ hm⟩
  · intro h
    have hok := collectNullColumns_all_present df column_names h
    constructor
    · rw [check_not_null_values_of_ok df column_names _ hok]
      split_ifs with hz
      · constructor
        · intro _; exact hiff.mp hz
        · intro _; rfl
      · constructor
        · intro hc; cases hc
        · intro hall; exact absurd (hiff.mpr hall) hz
    · intro hex
      rw [check_not_null_values_of_ok df column_names _ hok]
      have hz : ¬ ((column_names.filter (fun c =>
          decide (0 < DataQualityLibrary.nullCount df c))).map
            (fun c => (c, DataQualityLibrary.nullCount df c))).length = 0 := by
        intro h0
        rcases hex with ⟨c, hcmem, hpos⟩
        have h2 := hiff.mp h0 c hcmem
        omega
      rw [if_neg hz]

/-- Witness for C3: a frame whose column a holds one null fails the
assertion with the per-column count, and a missing requested column
raises a ValueError. -/
theorem check_not_null_values_spec_witness :
    DataQualityLibrary.check_not_null_values sampleNulls ["a"] =
      .error (.assertionError (.nullsFound [("a", 1)])) ∧
    (∃ m, DataQualityLibrary.check_not_null_values sampleNulls ["zz", "a"] =
      .error (.valueError m)) := by
  constructor
  · exact ((check_not_null_values_spec sampleNulls ["a"]).2 (by decide)).2
      ⟨"a", by decide, by decide⟩
  · exact (check_not_null_values_spec sampleNulls ["zz", "a"]).1
      ⟨"zz", by decide, by decide⟩
